import Mathlib

/-!
Verification of `transcribe-swedish-speech-to-text`.

Shallow embedding of the two source files of the repository:

* `src/swedish_transcriber.py` — the CLI batch tool
  (`SwedishTranscriber.transcribe_audio`, `transcribe_file`,
  `transcribe_directory`, `main`);
* `src/swedish_transcriber_webapp.py` — the Flask web service
  (`load_model`, `status`, `transcribe`, `download`).

External collaborators (the pretrained Whisper model, `librosa`, the
tokenizer, Flask routing, `werkzeug.secure_filename`) are treated as
opaque oracles, exactly as the specification scopes them out.
Filesystem effects relevant to the claims (temporary upload files,
per-file transcription outputs) are tracked explicitly in the results
of the embedded operations.
-/

namespace SwedishTranscriber

/-!
Python `str.strip()`.

Both pipeline variants end with `transcription.strip()`.  We model
Python strings as Lean `String`s and `strip` as dropping whitespace
characters from both ends of the character list.  The ASCII whitespace
recognised by Python's `str.strip()` is space, tab, newline, carriage
return, vertical tab and form feed (non-ASCII Unicode whitespace is
abstracted into the same predicate; every lemma below is parametric in
the predicate).
-/

def pyIsSpace (c : Char) : Bool :=
  c = ' ' || c = '\t' || c = '\n' || c = '\r' || c = '\x0b' || c = '\x0c'

/-- Strip on character lists, parametric in the whitespace predicate:
drop from the front, then from the back. -/
def stripWith (p : Char → Bool) (l : List Char) : List Char :=
  ((l.dropWhile p).reverse.dropWhile p).reverse

/-- Python's `s.strip()`. -/
def pyStrip (s : String) : String :=
  ⟨stripWith pyIsSpace s.data⟩

/-!
The transcription pipeline.

The webapp method `transcribe_audio_file`
(`src/swedish_transcriber_webapp.py`, lines 44–73) runs
librosa-load → processor → `model.generate` → `batch_decode` inside a
`try`, returns `transcription.strip()`, and wraps any exception `e` as
`Exception("Transcription error: " + str(e))`.  The whole chain up to
and including `batch_decode` is an external black box; it is embedded
as an outcome of type `Except String String` (either the message of
the exception some stage raised, or the decoded text
`batch_decode(...)[0]`).
-/

def transcribe_audio_file (outcome : Except String String) :
    Except String String :=
  match outcome with
  | .error e => .error ("Transcription error: " ++ e)
  | .ok decoded => .ok (pyStrip decoded)

/-- CLI method `transcribe_audio` (`src/swedish_transcriber.py`,
lines 51–87): `load_audio` may fail, printing a message and returning
`None` (embedded as `audio = none`); the black-box chain then runs in
a `try` that converts any exception to `None`; on success the method
returns `transcription.strip()`. -/
def transcribe_audio (audio : Option Unit)
    (outcome : Except String String) : Option String :=
  match audio with
  | none => none
  | some _ =>
    match outcome with
    | .error _ => none
    | .ok decoded => some (pyStrip decoded)

/-!
Fragments of Python `pathlib` used by the code: `Path(p).name`,
`Path(p).stem` and `Path(p).suffix`.
-/

/-- Index of the last `'.'` in a character list (Python `str.rfind`),
if any. -/
def rfindDot : List Char → Option Nat
  | [] => none
  | c :: cs =>
    match rfindDot cs with
    | some i => some (i + 1)
    | none => if c = '.' then some 0 else none

/-- Split a character list at every occurrence of `sep`, keeping empty
pieces (Python `str.split(sep)`). -/
def splitOnChar (sep : Char) : List Char → List (List Char)
  | [] => [[]]
  | c :: cs =>
    match splitOnChar sep cs with
    | [] => [[c]]
    | h :: t => if c = sep then [] :: h :: t else (c :: h) :: t

/-- Python `s.lower()`, on the ASCII range the extension allow-list
comparison exercises. -/
def pyLower (s : String) : String :=
  ⟨s.data.map Char.toLower⟩

/-- Final path component, as `pathlib` computes it: empty and `"."`
components of the `/`-separated path are dropped and the last
remaining component is the name (empty when none remains). -/
def pathlibName (p : String) : String :=
  ⟨((splitOnChar '/' p.data).filter (fun c => c != [] && c != ['.'])).getLastD []⟩

/-- Python `Path(p).stem`: the name without its last suffix.  Per
`pathlib`, the last `'.'` splits off a suffix only when it is neither
the first nor the last character of the name. -/
def pathlibStem (p : String) : String :=
  let name := pathlibName p
  match rfindDot name.data with
  | some i =>
    if 0 < i ∧ i + 1 < name.data.length then ⟨name.data.take i⟩ else name
  | none => name

/-- Python `Path(p).suffix`: the last suffix of the name including the
dot, or `""` when there is none. -/
def pathlibSuffix (p : String) : String :=
  let name := pathlibName p
  match rfindDot name.data with
  | some i =>
    if 0 < i ∧ i + 1 < name.data.length then ⟨name.data.drop i⟩ else ""
  | none => ""

/-!
CLI batch orchestration (`src/swedish_transcriber.py`).

The per-path black boxes are passed as oracles: `audioLoad` is
`load_audio`'s outcome (`none` = librosa failed), `decode` is the
outcome of the processor/generate/decode chain, `ex` is
`os.path.exists`, and `writeOk` tells whether `open(out, "w")` for an
output path succeeds (a failing write is modelled as the `open` call
raising, so no output file appears and the `except` branch returns
`False`).  Two filesystem operations of directory mode run outside any
`try` and can raise uncaught: the `iterdir` listing and the `mkdir` of
the output directory; they get `Except`-valued oracles so the crash
path is represented. -/

/-- Record an optional filesystem write in the log of output files
(the log grows exactly when a write happened). -/
def appendOpt {β : Type} (acc : List β) (w : Option β) : List β :=
  match w with
  | none => acc
  | some w => acc ++ [w]

/-- Fixed allow-list of audio file extensions
(`src/swedish_transcriber.py`, line 126). -/
def audio_extensions : List String :=
  [".wav", ".mp3", ".m4a", ".flac", ".ogg", ".aac"]

/-- CLI `transcribe_file` (lines 89–116).  Returns the success flag
and, when an output file was written, its path and content. -/
def transcribe_file (ex : String → Bool) (audioLoad : String → Option Unit)
    (decode : String → Except String String) (writeOk : String → Bool)
    (input_path : String) (output_path : Option String) :
    Bool × Option (String × String) :=
  if ex input_path = false then (false, none)
  else
    match transcribe_audio (audioLoad input_path) (decode input_path) with
    | none => (false, none)
    | some t =>
      match output_path with
      | none => (true, none)
      | some out =>
        if writeOk out then (true, some (out, t)) else (false, none)

/-- CLI `transcribe_directory` (lines 118–151).  `iterdir` is the
outcome of the `input_path.iterdir()` listing at line 127, in
iteration order, each entry given as its path string — the listing
itself may raise (e.g. `PermissionError`), and nothing catches it.
When an output directory is given,
`output_path.mkdir(parents=True, exist_ok=True)` at line 139 runs
outside any `try`; `mkdir` gives its outcome per output path
(`exist_ok=True` suppresses the error only for an existing directory:
the call raises `FileExistsError` when the path names an existing
regular file).  An uncaught exception propagates out of the function
(`Except.error`); otherwise the result carries the list of entries
processed (in order) and the log of output files written, as
(path, content) pairs, in order of writing. -/
def transcribe_directory (dirExists : Bool)
    (iterdir : Except String (List String))
    (audioLoad : String → Option Unit)
    (decode : String → Except String String)
    (ex : String → Bool) (writeOk : String → Bool)
    (mkdir : String → Except String Unit)
    (output_dir : Option String) :
    Except String (List String × List (String × String)) :=
  if dirExists = false then .ok ([], [])
  else
    match iterdir with
    | .error e => .error e
    | .ok entries =>
      let audio_files := entries.filter fun f =>
        audio_extensions.contains (pyLower (pathlibSuffix f))
      if audio_files.isEmpty then .ok ([], [])
      else
        let mkdirResult := match output_dir with
          | some od => mkdir od
          | none => Except.ok ()
        match mkdirResult with
        | .error e => .error e
        | .ok _ =>
          let outputs := audio_files.foldl (fun acc f =>
            let output_file := output_dir.map fun od =>
              od ++ "/" ++ pathlibStem f ++ "_transcription.txt"
            appendOpt acc (transcribe_file ex audioLoad decode writeOk f output_file).2) []
          .ok (audio_files, outputs)

/-- Classification of the CLI `input` argument
(`Path(args.input).is_file()` / `.is_dir()` / neither). -/
inductive PathKind where
  | file
  | dir
  | invalid
deriving DecidableEq

/-- CLI `main` (lines 153–187).  `loadOk` is whether
`SwedishTranscriber.__init__` loaded the model (on failure it calls
`sys.exit(1)`).  Returns the process exit code and the output files
written.  Python exits 0 when `main` falls off the end; the return
values of `transcribe_file` and `transcribe_directory` are discarded,
but an exception that escapes `transcribe_directory` (failed `iterdir`
or `mkdir`) propagates out of `main` uncaught and the interpreter
exits with code 1, having written nothing (both raises happen before
the processing loop). -/
def cliMain (loadOk : Bool) (kind : PathKind) (input : String)
    (iterdir : Except String (List String)) (audioLoad : String → Option Unit)
    (decode : String → Except String String)
    (ex : String → Bool) (writeOk : String → Bool)
    (mkdir : String → Except String Unit)
    (output : Option String) : Nat × List (String × String) :=
  if loadOk = false then (1, [])
  else
    match kind with
    | .file =>
      (0, ((transcribe_file ex audioLoad decode writeOk input output).2).toList)
    | .dir =>
      match transcribe_directory true iterdir audioLoad decode ex writeOk mkdir output with
      | .error _ => (1, [])
      | .ok r => (0, r.2)
    | .invalid => (1, [])

/-!
Web service (`src/swedish_transcriber_webapp.py`).

The process-wide globals `transcriber`, `model_loading` and
`model_load_error` (lines 29–31) form the application state.  A loaded
transcriber is its decode oracle: per uploaded file, the outcome of
the black-box chain of `transcribe_audio_file` (the oracle is indexed
by the upload's filename; the actual temporary path is
`os.path.join(tempfile.gettempdir(), secure_filename(filename))`,
whose construction is external and irrelevant to the claims).
-/

structure AppState where
  transcriber : Option (String → Except String String)
  model_loading : Bool
  model_load_error : Option String

/-- The globals as initialised at module import (lines 29–31). -/
def initialState : AppState := ⟨none, true, none⟩

/-- Webapp `load_model` (lines 75–86), run once in the background
thread: on success it sets `transcriber` and clears `model_loading`;
on an exception `e` it records `str(e)` and clears `model_loading`. -/
def load_model (outcome : Except String (String → Except String String))
    (s : AppState) : AppState :=
  match outcome with
  | .ok t => { s with transcriber := some t, model_loading := false }
  | .error e => { s with model_loading := false, model_load_error := some e }

/-- The lifecycle of the webapp state: it starts as `initialState`
and the single background `load_model` call makes at most one step;
nothing else writes the globals. -/
inductive Reachable : AppState → Prop where
  | init : Reachable initialState
  | loaded (outcome) : Reachable (load_model outcome initialState)

/-- JSON body of `GET /status`. -/
structure StatusJson where
  loading : Bool
  ready : Bool
  error : Option String
deriving DecidableEq

/-- Webapp `status` endpoint (lines 395–402). -/
def status (s : AppState) : StatusJson :=
  ⟨s.model_loading, s.transcriber.isSome, s.model_load_error⟩

/-- An entry of `request.files`: the upload's client-supplied
filename (`file.filename`). -/
structure UploadedFile where
  filename : String
deriving DecidableEq

/-- A `POST /transcribe` request: `audio = none` means the multipart
form has no `audio` field. -/
structure TranscribeRequest where
  audio : Option UploadedFile
deriving DecidableEq

/-- Outcome of `file.save(temp_path)` (line 422): it either succeeds,
or raises with message `msg`, leaving a partial file on disk or not
(`created`). -/
inductive SaveOutcome where
  | ok
  | failed (msg : String) (created : Bool)
deriving DecidableEq

/-- Observable result of one `POST /transcribe` call: the HTTP status,
the JSON body's `error` / `transcription` / `processing_time` keys,
and the effects the claims are about — whether any stage of the
pipeline ran, whether a temporary upload file came into existence, and
whether it is still on disk when the handler returns. -/
structure TranscribeResult where
  statusCode : Nat
  errorMsg : Option String
  transcription : Option String
  processing_time : Option String
  pipelineInvoked : Bool
  tempFileSaved : Bool
  tempFileRemains : Bool
deriving DecidableEq

/-- Webapp `transcribe` endpoint (lines 404–441).  `ptime` stands for
the formatted elapsed-time string (wall-clock measurement is
external).  The `except` branch (lines 437–441) deletes the temporary
file whenever it exists, so no branch leaves it on disk. -/
def transcribe (s : AppState) (req : TranscribeRequest)
    (save : SaveOutcome) (ptime : String) : TranscribeResult :=
  match s.transcriber with
  | none => ⟨500, some "Model not loaded yet", none, none, false, false, false⟩
  | some decode =>
    match req.audio with
    | none => ⟨400, some "No audio file provided", none, none, false, false, false⟩
    | some file =>
      if file.filename = "" then
        ⟨400, some "No file selected", none, none, false, false, false⟩
      else
        match save with
        | .failed msg created => ⟨500, some msg, none, none, false, created, false⟩
        | .ok =>
          match transcribe_audio_file (decode file.filename) with
          | .error e => ⟨500, some e, none, none, true, true, false⟩
          | .ok t => ⟨200, none, some t, some ptime, true, true, false⟩

/-- A `GET /download` request's query parameters (`none` = absent;
Flask's `request.args.get` then yields the default). -/
structure DownloadQuery where
  text : Option String
  filename : Option String
deriving DecidableEq

/-- Observable result of one `GET /download` call: HTTP status, the
plain-text body of the 400 branch, the attachment (download name,
mimetype, content), and whether the handler created a temporary file
and left it on disk. -/
structure DownloadResult where
  statusCode : Nat
  body : Option String
  attachmentName : Option String
  mimetype : Option String
  content : Option String
  tempFileCreated : Bool
  tempFileRemains : Bool
deriving DecidableEq

/-- Webapp `download` endpoint (lines 443–465).  An empty or absent
`text` parameter is falsy in Python, hence the 400 branch; otherwise
the handler writes `text` to a fresh `NamedTemporaryFile` with
`delete=False`, never unlinks it, and serves it as an attachment named
after the `filename` parameter's stem. -/
def download (q : DownloadQuery) : DownloadResult :=
  let text := q.text.getD ""
  let filename := q.filename.getD "transcription"
  if text = "" then
    ⟨400, some "No text to download", none, none, none, false, false⟩
  else
    ⟨200, none, some (pathlibStem filename ++ "_transcription.txt"),
      some "text/plain", some text, true, true⟩

/-- A concrete ready state (successful load), used by witnesses. -/
def readyState : AppState :=
  ⟨some (fun _ => .ok " Hej, det regnar. "), false, none⟩

end SwedishTranscriber

namespace SwedishTranscriber

/-!
Helper lemmas about `stripWith`.
-/

theorem dropWhile_dropWhile (p : Char → Bool) (l : List Char) :
    (l.dropWhile p).dropWhile p = l.dropWhile p := by
  induction l with
  | nil => rfl
  | cons a l ih =>
    by_cases h : p a
    · simp [List.dropWhile, h, ih]
    · simp [List.dropWhile, h]

theorem head?_dropWhile_not (p : Char → Bool) (l : List Char) (c : Char)
    (h : (l.dropWhile p).head? = some c) : p c = false := by
  induction l with
  | nil => simp [List.dropWhile] at h
  | cons a l ih =>
    by_cases hp : p a
    · simp [List.dropWhile, hp] at h
      exact ih h
    · simp [List.dropWhile, hp] at h
      subst h
      simpa using hp

theorem getLast?_dropWhile (p : Char → Bool) (l : List Char)
    (h : l.dropWhile p ≠ []) : (l.dropWhile p).getLast? = l.getLast? := by
  induction l with
  | nil => simp [List.dropWhile] at h
  | cons a l ih =>
    by_cases hp : p a
    · have hd : (a :: l).dropWhile p = l.dropWhile p := by
        simp [List.dropWhile, hp]
      rw [hd] at h ⊢
      have hl : l ≠ [] := by
        intro he; subst he; simp [List.dropWhile] at h
      rw [ih h]
      cases l with
      | nil => exact absurd rfl hl
      | cons b t => rw [List.getLast?_cons_cons]
    · simp [List.dropWhile, hp]

theorem stripWith_head_clean (p : Char → Bool) (l : List Char) (c : Char)
    (h : (stripWith p l).head? = some c) : p c = false := by
  unfold stripWith at h
  rw [List.head?_reverse] at h
  have hne : (l.dropWhile p).reverse.dropWhile p ≠ [] := by
    intro he; rw [he] at h; simp at h
  rw [getLast?_dropWhile p _ hne, List.getLast?_reverse] at h
  exact head?_dropWhile_not p l c h

theorem dropWhile_eq_self_of_head (p : Char → Bool) (m : List Char)
    (h : ∀ c, m.head? = some c → p c = false) : m.dropWhile p = m := by
  cases m with
  | nil => rfl
  | cons c t => simp [List.dropWhile, h c rfl]

theorem stripWith_idem (p : Char → Bool) (l : List Char) :
    stripWith p (stripWith p l) = stripWith p l := by
  have h1 : (stripWith p l).dropWhile p = stripWith p l :=
    dropWhile_eq_self_of_head p _ (stripWith_head_clean p l)
  show (((stripWith p l).dropWhile p).reverse.dropWhile p).reverse = stripWith p l
  rw [h1]
  show ((((l.dropWhile p).reverse.dropWhile p).reverse.reverse.dropWhile p)).reverse
      = stripWith p l
  rw [List.reverse_reverse, dropWhile_dropWhile]
  rfl

/-- Idempotency of `pyStrip`: a stripped string has no leading or
trailing whitespace left to strip. -/
theorem pyStrip_pyStrip (s : String) : pyStrip (pyStrip s) = pyStrip s :=
  congrArg String.mk (stripWith_idem pyIsSpace s.data)

/-- Folding an optional-append body over a list collects exactly the
`some` results, in order (shape of `transcribe_directory`'s loop). -/
theorem foldl_opt_append {α β : Type} (g : α → Option β) (l : List α)
    (acc : List β) :
    l.foldl (fun acc f => appendOpt acc (g f)) acc = acc ++ l.filterMap g := by
  induction l generalizing acc with
  | nil => simp
  | cons a l ih =>
    rw [List.foldl_cons, ih]
    cases hg : g a with
    | none => simp [appendOpt, hg, List.filterMap_cons]
    | some w => simp [appendOpt, hg, List.filterMap_cons]

/-- With no output path, `transcribe_file` never writes a file. -/
theorem transcribe_file_none_output (ex : String → Bool)
    (audioLoad : String → Option Unit) (decode : String → Except String String)
    (writeOk : String → Bool) (input : String) :
    (transcribe_file ex audioLoad decode writeOk input none).2 = none := by
  unfold transcribe_file
  by_cases h : ex input = false
  · rw [if_pos h]
  · rw [if_neg h]
    cases transcribe_audio (audioLoad input) (decode input) <;> rfl

/-!
Claim theorems.
-/

/-- C1, counterexample: with the model still loading (`transcriber`
unset, as at startup), a `POST /transcribe` request with no `audio`
field is answered with status 500 (`Model not loaded yet`), not 400 —
the not-ready check at lines 408–409 runs before the missing-field
check at lines 411–412, so the 400 does not come "in every model
state" as claimed. -/
theorem claim_C1_counterexample :
    (transcribe initialState ⟨none⟩ .ok "0.00 seconds").statusCode = 500
    ∧ ¬ (transcribe initialState ⟨none⟩ .ok "0.00 seconds").statusCode = 400 := by
  decide

/-- C1, amended: a `POST /transcribe` request with no `audio` field is
answered with a JSON body containing an `error` key in every model
state; the HTTP status is 400 when the model is ready and 500 when the
transcriber is unset (loading or failed). -/
theorem claim_C1 (s : AppState) (req : TranscribeRequest)
    (save : SaveOutcome) (ptime : String) (h : req.audio = none) :
    ((transcribe s req save ptime).errorMsg).isSome = true
    ∧ (transcribe s req save ptime).statusCode
        = (if s.transcriber.isSome then 400 else 500) := by
  obtain ⟨tr, ml, me⟩ := s
  obtain ⟨audio⟩ := req
  cases audio with
  | none => cases tr <;> simp [transcribe]
  | some f => simp at h

/-- Witness for C1 at a ready state and a request with no `audio`
field. -/
theorem claim_C1_witness :
    ((transcribe readyState ⟨none⟩ .ok "0.00 seconds").errorMsg).isSome = true
    ∧ (transcribe readyState ⟨none⟩ .ok "0.00 seconds").statusCode
        = (if readyState.transcriber.isSome then 400 else 500) :=
  claim_C1 readyState ⟨none⟩ .ok "0.00 seconds" rfl

/-- C2, counterexample: the pipeline does not guarantee a non-empty
result.  When the decoded text is whitespace-only (here a single
space), `transcription.strip()` is the empty string and
`transcribe_audio_file` returns it without signalling any failure. -/
theorem claim_C2_counterexample :
    ¬ ∀ (o : Except String String) (s : String),
        transcribe_audio_file o = Except.ok s → s ≠ "" := by
  intro h
  exact h (Except.ok " ") "" rfl rfl

/-- C2, amended: for every accepted audio input, each pipeline variant
either signals a well-defined failure (an exception wrapped as
`Transcription error: ...` in the webapp, `None` in the CLI) or
returns a string with no leading or trailing whitespace — but that
string may be empty when the decoded text was whitespace-only. -/
theorem claim_C2 :
    (∀ (o : Except String String) (s : String),
        transcribe_audio_file o = Except.ok s → pyStrip s = s)
    ∧ (∀ (a : Option Unit) (o : Except String String) (s : String),
        transcribe_audio a o = some s → pyStrip s = s) := by
  constructor
  · intro o s h
    cases o with
    | error e => simp [transcribe_audio_file] at h
    | ok d =>
      simp [transcribe_audio_file] at h
      subst h
      exact pyStrip_pyStrip d
  · intro a o s h
    cases a with
    | none => simp [transcribe_audio] at h
    | some u =>
      cases o with
      | error e => simp [transcribe_audio] at h
      | ok d =>
        simp [transcribe_audio] at h
        subst h
        exact pyStrip_pyStrip d

/-- Witness for C2 on the decoded text `" Hej "`: the webapp pipeline
returns `"Hej"`, which strips to itself. -/
theorem claim_C2_witness :
    transcribe_audio_file (Except.ok " Hej ") = Except.ok "Hej"
    ∧ pyStrip "Hej" = "Hej" :=
  ⟨rfl, claim_C2.1 (Except.ok " Hej ") "Hej" rfl⟩

/-- C3: `GET /status` reports `loading=true, ready=false, error=null`
before load completion, `loading=false, ready=true, error=null` after
a successful load, and `loading=false, ready=false, error=<message>`
after a failed load; and the one-shot background load admits exactly
the transitions loading→ready and loading→error — every reachable
state is the initial one or the result of one `load_model` step. -/
theorem claim_C3 :
    status initialState = ⟨true, false, none⟩
    ∧ (∀ t, status (load_model (Except.ok t) initialState) = ⟨false, true, none⟩)
    ∧ (∀ e, status (load_model (Except.error e) initialState)
        = ⟨false, false, some e⟩)
    ∧ (∀ s, Reachable s → s = initialState ∨ ∃ o, s = load_model o initialState) := by
  refine ⟨rfl, fun t => rfl, fun e => rfl, fun s h => ?_⟩
  cases h with
  | init => exact Or.inl rfl
  | loaded o => exact Or.inr ⟨o, rfl⟩

/-- Witness for C3 at the initial (loading) state. -/
theorem claim_C3_witness :
    status initialState = ⟨true, false, none⟩
    ∧ (initialState = initialState
        ∨ ∃ o, initialState = load_model o initialState) :=
  ⟨claim_C3.1, claim_C3.2.2.2 initialState Reachable.init⟩

/-- C4: on every exit path of `POST /transcribe` — success, a failing
`file.save`, or an exception from the pipeline — any temporary upload
file that came into existence is deleted before the handler returns
(lines 429–430 on success, lines 438–440 in the `except` branch). -/
theorem claim_C4 (s : AppState) (req : TranscribeRequest)
    (save : SaveOutcome) (ptime : String)
    (h : (transcribe s req save ptime).tempFileSaved = true) :
    (transcribe s req save ptime).tempFileRemains = false := by
  obtain ⟨tr, ml, me⟩ := s
  cases tr with
  | none => rfl
  | some decode =>
    obtain ⟨audio⟩ := req
    cases audio with
    | none => rfl
    | some file =>
      by_cases hf : file.filename = ""
      · simp [transcribe, hf]
      · cases save with
        | failed msg created => simp [transcribe, hf]
        | ok =>
          cases hd : transcribe_audio_file (decode file.filename) with
          | error e => simp [transcribe, hf, hd]
          | ok t => simp [transcribe, hf, hd]

/-- Witness for C4 on a successful transcription at a ready state: the
temporary file was saved and does not remain. -/
theorem claim_C4_witness :
    (transcribe readyState ⟨some ⟨"clip.mp3"⟩⟩ .ok "1.00 seconds").tempFileSaved = true
    ∧ (transcribe readyState ⟨some ⟨"clip.mp3"⟩⟩ .ok "1.00 seconds").tempFileRemains
        = false :=
  ⟨rfl, claim_C4 readyState ⟨some ⟨"clip.mp3"⟩⟩ .ok "1.00 seconds" rfl⟩

/-- C5, counterexample: one output file per processed input fails when
a file's transcription fails.  A directory holding exactly `a.wav`
whose decode stage raises is processed (the single entry matches the
allow-list) yet produces no output file, because `transcribe_file`
writes only after a successful transcription. -/
theorem claim_C5_counterexample :
    transcribe_directory true (Except.ok ["a.wav"]) (fun _ => some ())
        (fun _ => Except.error "decode failed") (fun _ => true) (fun _ => true)
        (fun _ => Except.ok ()) (some "out")
      = Except.ok (["a.wav"], []) := rfl

/-- C5, amended: provided the `iterdir` listing succeeds and — when an
output directory is given and some entry matches — the `mkdir` of the
output directory succeeds, batch mode processes exactly the entries
whose extension, compared case-insensitively, is in the fixed
allow-list, in directory-iteration order, and writes one output file
named `<stem>_transcription.txt` per processed input file whose
transcription (and write) succeeds — a file whose transcription fails
produces no output file.  When `mkdir` raises (an existing regular
file at the output path) or `iterdir` itself raises, the uncaught
exception aborts the run before any entry is processed. -/
theorem claim_C5 (entries : List String) (audioLoad : String → Option Unit)
    (decode : String → Except String String) (ex : String → Bool)
    (writeOk : String → Bool) (mkdir : String → Except String Unit)
    (od : String) (e : String) :
    (transcribe_directory true (Except.ok entries) audioLoad decode ex writeOk
        mkdir none
      = Except.ok (entries.filter
          (fun f => audio_extensions.contains (pyLower (pathlibSuffix f))), []))
    ∧ (mkdir od = Except.ok () →
      transcribe_directory true (Except.ok entries) audioLoad decode ex writeOk
          mkdir (some od)
        = Except.ok (entries.filter
            (fun f => audio_extensions.contains (pyLower (pathlibSuffix f))),
          (entries.filter
            (fun f => audio_extensions.contains (pyLower (pathlibSuffix f)))).filterMap
            (fun f => (transcribe_file ex audioLoad decode writeOk f
              (some (od ++ "/" ++ pathlibStem f ++ "_transcription.txt"))).2)))
    ∧ ((entries.filter
          (fun f => audio_extensions.contains (pyLower (pathlibSuffix f)))).isEmpty
            = false →
      mkdir od = Except.error e →
      transcribe_directory true (Except.ok entries) audioLoad decode ex writeOk
          mkdir (some od)
        = Except.error e)
    ∧ (transcribe_directory true (Except.error e) audioLoad decode ex writeOk
        mkdir (some od)
      = Except.error e) := by
  have hdir : ¬ (true = false) := by simp
  have hnone : ∀ l : List String,
      l.filterMap (fun f => (transcribe_file ex audioLoad decode writeOk f none).2)
        = [] := by
    intro l
    induction l with
    | nil => rfl
    | cons a t ih => simp [List.filterMap_cons, transcribe_file_none_output, ih]
  refine ⟨?_, ?_, ?_, ?_⟩
  · simp only [transcribe_directory]
    rw [if_neg hdir]
    by_cases he : (entries.filter
        (fun f => audio_extensions.contains (pyLower (pathlibSuffix f)))).isEmpty = true
    · rw [if_pos he, List.isEmpty_iff.mp he]
    · rw [if_neg he]
      have hfold := foldl_opt_append
        (fun f => (transcribe_file ex audioLoad decode writeOk f none).2)
        (entries.filter
          (fun f => audio_extensions.contains (pyLower (pathlibSuffix f)))) []
      rw [hnone] at hfold
      simp only [List.append_nil] at hfold
      simp only [Option.map_none']
      rw [hfold]
  · intro hmk
    simp only [transcribe_directory]
    rw [if_neg hdir]
    by_cases he : (entries.filter
        (fun f => audio_extensions.contains (pyLower (pathlibSuffix f)))).isEmpty = true
    · rw [if_pos he, List.isEmpty_iff.mp he]
      rfl
    · rw [if_neg he]
      simp only [hmk, Option.map_some']
      have hfold := foldl_opt_append
        (fun f => (transcribe_file ex audioLoad decode writeOk f
          (some (od ++ "/" ++ pathlibStem f ++ "_transcription.txt"))).2)
        (entries.filter
          (fun f => audio_extensions.contains (pyLower (pathlibSuffix f)))) []
      simp only [List.nil_append] at hfold
      rw [hfold]
  · intro he hmk
    simp only [transcribe_directory]
    rw [if_neg hdir, if_neg (by rw [he]; exact Bool.false_ne_true)]
    simp only [hmk]
  · rfl

/-- Witness for C5: a directory listing `["a.wav"]` with a working
pipeline yields one processed entry and its output file when `mkdir`
succeeds, and aborts with the `mkdir` exception when the output path
names an existing regular file. -/
theorem claim_C5_witness :
    transcribe_directory true (Except.ok ["a.wav"]) (fun _ => some ())
        (fun _ => Except.ok " hej ") (fun _ => true) (fun _ => true)
        (fun _ => Except.ok ()) (some "out")
      = Except.ok ((["a.wav"].filter
          (fun f => audio_extensions.contains (pyLower (pathlibSuffix f)))),
        ((["a.wav"].filter
          (fun f => audio_extensions.contains (pyLower (pathlibSuffix f)))).filterMap
          (fun f => (transcribe_file (fun _ => true) (fun _ => some ())
            (fun _ => Except.ok " hej ") (fun _ => true) f
            (some ("out" ++ "/" ++ pathlibStem f ++ "_transcription.txt"))).2)))
    ∧ transcribe_directory true (Except.ok ["a.wav"]) (fun _ => some ())
        (fun _ => Except.ok " hej ") (fun _ => true) (fun _ => true)
        (fun _ => Except.error "FileExistsError") (some "out")
      = Except.error "FileExistsError" :=
  ⟨(claim_C5 ["a.wav"] (fun _ => some ()) (fun _ => Except.ok " hej ")
      (fun _ => true) (fun _ => true) (fun _ => Except.ok ()) "out"
      "FileExistsError").2.1 rfl,
   (claim_C5 ["a.wav"] (fun _ => some ()) (fun _ => Except.ok " hej ")
      (fun _ => true) (fun _ => true) (fun _ => Except.error "FileExistsError")
      "out" "FileExistsError").2.2.1 (by decide) rfl⟩

/-- C6: `GET /download` with non-empty `text=T` and `filename=F`
returns a `text/plain` attachment named `<stem of F>_transcription.txt`
whose content is exactly `T`. -/
theorem claim_C6 (T F : String) (hT : T ≠ "") (hF : F ≠ "") :
    download ⟨some T, some F⟩
      = ⟨200, none, some (pathlibStem F ++ "_transcription.txt"),
          some "text/plain", some T, true, true⟩ := by
  simp [download, hT]

/-- Witness for C6 at the spec's example:
`/download?text=Hej&filename=clip.mp3` yields an attachment named
`clip_transcription.txt` containing exactly `Hej`. -/
theorem claim_C6_witness :
    download ⟨some "Hej", some "clip.mp3"⟩
      = ⟨200, none, some (pathlibStem "clip.mp3" ++ "_transcription.txt"),
          some "text/plain", some "Hej", true, true⟩
    ∧ pathlibStem "clip.mp3" ++ "_transcription.txt" = "clip_transcription.txt" :=
  ⟨claim_C6 "Hej" "clip.mp3" (by decide) (by decide), by decide⟩

/-- C7, counterexample: with the model loaded and a valid input
directory holding `a.wav`, an output option naming an existing regular
file makes `output_path.mkdir(parents=True, exist_ok=True)` (line 139,
outside any `try`) raise `FileExistsError`; the exception escapes
`main` and the interpreter exits 1 — refuting "exits with code 0
otherwise". -/
theorem claim_C7_counterexample :
    (cliMain true PathKind.dir "recordings" (Except.ok ["a.wav"])
        (fun _ => some ()) (fun _ => Except.ok "hej") (fun _ => true)
        (fun _ => true) (fun _ => Except.error "FileExistsError")
        (some "out")).1 = 1
    ∧ ¬ (true = false ∨ PathKind.dir = PathKind.invalid) :=
  ⟨rfl, by decide⟩

/-- C7, amended: the CLI exits 1 exactly when model loading fails, the
input path is neither a file nor a directory, or (in directory mode)
one of the pre-loop filesystem operations raises uncaught — the
`iterdir` listing or the `mkdir` of the output directory — and exits 0
otherwise; the quantification over the per-file oracles shows that
per-file transcription failures never change the exit code. -/
theorem claim_C7 (loadOk : Bool) (kind : PathKind) (input : String)
    (iterdir : Except String (List String)) (audioLoad : String → Option Unit)
    (decode : String → Except String String) (ex : String → Bool)
    (writeOk : String → Bool) (mkdir : String → Except String Unit)
    (output : Option String) :
    ((cliMain loadOk kind input iterdir audioLoad decode ex writeOk mkdir
        output).1 = 1
      ↔ (loadOk = false ∨ kind = PathKind.invalid
          ∨ (kind = PathKind.dir ∧ ∃ e, transcribe_directory true iterdir
              audioLoad decode ex writeOk mkdir output = Except.error e)))
    ∧ ((cliMain loadOk kind input iterdir audioLoad decode ex writeOk mkdir
        output).1 = 0
      ↔ ¬ (loadOk = false ∨ kind = PathKind.invalid
          ∨ (kind = PathKind.dir ∧ ∃ e, transcribe_directory true iterdir
              audioLoad decode ex writeOk mkdir output = Except.error e))) := by
  cases loadOk with
  | false => simp [cliMain]
  | true =>
    cases kind with
    | invalid => simp [cliMain]
    | file => simp [cliMain]
    | dir =>
      cases h : transcribe_directory true iterdir audioLoad decode ex writeOk
          mkdir output with
      | error e => simp [cliMain, h]
      | ok r => simp [cliMain, h]

/-- C8: `POST /transcribe` while the transcriber handle is unset
returns a 500 error (`Model not loaded yet`) and no stage of the
pipeline runs. -/
theorem claim_C8 (s : AppState) (req : TranscribeRequest)
    (save : SaveOutcome) (ptime : String) (h : s.transcriber = none) :
    (transcribe s req save ptime).statusCode = 500
    ∧ (transcribe s req save ptime).errorMsg = some "Model not loaded yet"
    ∧ (transcribe s req save ptime).pipelineInvoked = false := by
  obtain ⟨tr, ml, me⟩ := s
  cases tr with
  | none => exact ⟨rfl, rfl, rfl⟩
  | some d => simp at h

/-- Witness for C8 at the initial (loading) state. -/
theorem claim_C8_witness :
    (transcribe initialState ⟨some ⟨"clip.mp3"⟩⟩ .ok "0.00 seconds").statusCode = 500
    ∧ (transcribe initialState ⟨some ⟨"clip.mp3"⟩⟩ .ok "0.00 seconds").errorMsg
        = some "Model not loaded yet"
    ∧ (transcribe initialState ⟨some ⟨"clip.mp3"⟩⟩ .ok "0.00 seconds").pipelineInvoked
        = false :=
  claim_C8 initialState ⟨some ⟨"clip.mp3"⟩⟩ .ok "0.00 seconds" rfl

/-- C9: every successful `GET /download` call creates a temporary file
(`NamedTemporaryFile` with `delete=False`) that the handler never
deletes — it still exists when the handler returns. -/
theorem claim_C9 (q : DownloadQuery) (h : (download q).statusCode = 200) :
    (download q).tempFileCreated = true
    ∧ (download q).tempFileRemains = true := by
  by_cases ht : q.text.getD "" = ""
  · simp [download, ht] at h
  · simp [download, ht]

/-- Witness for C9 at a successful download request. -/
theorem claim_C9_witness :
    (download ⟨some "Hej", some "clip.wav"⟩).tempFileCreated = true
    ∧ (download ⟨some "Hej", some "clip.wav"⟩).tempFileRemains = true :=
  claim_C9 ⟨some "Hej", some "clip.wav"⟩ (by decide)

/-- C10, counterexample: with the model still loading, a
`POST /transcribe` request whose `audio` field has an empty filename
is answered with status 500 (`Model not loaded yet`), not 400 — the
not-ready check at lines 408–409 runs before the empty-filename check
at lines 415–416. -/
theorem claim_C10_counterexample :
    (transcribe initialState ⟨some ⟨""⟩⟩ .ok "0.00 seconds").statusCode = 500
    ∧ ¬ (transcribe initialState ⟨some ⟨""⟩⟩ .ok "0.00 seconds").statusCode = 400 := by
  decide

/-- C10, amended: while the model is ready, a `POST /transcribe`
request whose `audio` field carries an empty filename is answered with
status 400 and body `{'error': 'No file selected'}`, nothing is saved
to disk and the pipeline is not invoked; while the transcriber is
unset such a request gets the 500 not-ready answer instead. -/
theorem claim_C10 (s : AppState) (f : UploadedFile) (save : SaveOutcome)
    (ptime : String) (hready : s.transcriber.isSome = true)
    (hname : f.filename = "") :
    (transcribe s ⟨some f⟩ save ptime).statusCode = 400
    ∧ (transcribe s ⟨some f⟩ save ptime).errorMsg = some "No file selected"
    ∧ (transcribe s ⟨some f⟩ save ptime).tempFileSaved = false
    ∧ (transcribe s ⟨some f⟩ save ptime).pipelineInvoked = false := by
  obtain ⟨tr, ml, me⟩ := s
  cases tr with
  | none => simp at hready
  | some d => simp [transcribe, hname]

/-- Witness for C10 at a ready state and an upload with empty
filename. -/
theorem claim_C10_witness :
    (transcribe readyState ⟨some ⟨""⟩⟩ .ok "0.00 seconds").statusCode = 400
    ∧ (transcribe readyState ⟨some ⟨""⟩⟩ .ok "0.00 seconds").errorMsg
        = some "No file selected"
    ∧ (transcribe readyState ⟨some ⟨""⟩⟩ .ok "0.00 seconds").tempFileSaved = false
    ∧ (transcribe readyState ⟨some ⟨""⟩⟩ .ok "0.00 seconds").pipelineInvoked = false :=
  claim_C10 readyState ⟨""⟩ .ok "0.00 seconds" rfl rfl

end SwedishTranscriber
